import Mathlib

/-!
Verification of the safety / pipeline-orchestration core of the
instaAutomation repository (files `src/safety_manager.py`,
`src/upload_to_instagram.py`, `src/models.py`, `src/config.py`).

The Python code is shallowly embedded: every method of `SafetyManager` and
`Uploader` that the claims touch becomes a pure Lean function; the mutable
state of the process (the in-memory action list, the persisted history file,
the authentication flag, the retry counter, and the sleeps the code issues)
is threaded explicitly as a `SState` value.  Timestamps are integers
(seconds); `time.time()` is passed in as an explicit `now` argument and the
local-midnight cutoff used by `get_action_count_today` as `midnight`.
External collaborators (the instagrapi client, the filesystem, the random
number generator) are modeled by explicit inputs: the outcomes of publish
calls form a script consumed in order, and random samples are universally
quantified arguments.
-/

/-- Embeds the `ActionRecord` dataclass of `src/safety_manager.py`:
`{timestamp, action_type, details}`.  The `details` dict is an opaque
key-value payload that the core never reads back; it is kept as an
association list. -/
structure ActionRecord where
  timestamp : Int
  action_type : String
  details : List (String × String) := []
deriving DecidableEq, Repr

/-- Abstract content of the persisted history file
(`session/action_history.json`).  `valid recs t` is a fully written JSON
document `{actions: recs, last_updated: t}`; `corrupt` is any byte string
that `json.load` rejects (in particular every strict prefix left by an
interrupted write, since a truncated JSON object is never valid JSON);
`missing` means the file does not exist. -/
inductive FileContent where
  | missing
  | corrupt
  | valid (records : List ActionRecord) (last_updated : Int)
deriving DecidableEq, Repr

/-- The mutable state of one process run: the in-memory `self.actions`
list, the persisted store, the `Uploader._authenticated` flag, the
`Uploader._retry_count` counter, and the log of `time.sleep` durations the
code has issued (sleeps have no further effect on the state; recording them
makes the delay behavior provable). -/
structure SState where
  actions : List ActionRecord
  file : FileContent
  authenticated : Bool
  retry_count : Nat
  sleeps : List Nat
deriving DecidableEq, Repr

/-- Embeds the `VideoStatus` enum of `src/models.py`. -/
inductive VideoStatus where
  | pending
  | downloading
  | downloaded
  | download_failed
  | uploading
  | uploaded
  | upload_failed
  | processing
deriving DecidableEq, Repr

/-- Embeds the `VideoMetadata` dataclass of `src/models.py` (the fields the
upload pipeline reads or writes; `post_id` is the Python `_post_id`, and
the `timestamp` creation time is omitted because nothing reads it). -/
structure VideoMetadata where
  url : String
  title : Option String := none
  file_path : Option String := none
  status : VideoStatus := VideoStatus.pending
  post_id : Option String := none
  error_message : Option String := none
  file_size : Option Nat := none
  duration : Option Nat := none
deriving DecidableEq, Repr

/-- Embeds the fields of `Settings` (`src/config.py`) that the safety
manager and uploader read, with the defaults of `config.py` (which coincide
with the `getattr` defaults used at the call sites). -/
structure Settings where
  max_posts_per_hour : Nat := 2
  max_posts_per_day : Nat := 10
  max_comments_per_hour : Nat := 20
  max_likes_per_hour : Nat := 50
  post_delay_seconds : Nat := 900
  post_delay_random_min : Nat := 600
  post_delay_random_max : Nat := 1800
  enable_exponential_backoff : Bool := true
  max_retry_attempts : Nat := 3
  retry_base_delay : Nat := 60
  auto_comment_enabled : Bool := false
  auto_comment_text : String := "Thanks for watching!"
  auto_reply_enabled : Bool := false
  auto_reply_text : String := "Thanks for your comment!"
  auto_reply_max_per_post : Nat := 5
  auto_like_max_per_post : Nat := 10
  use_trending_hashtags : Bool := true
deriving DecidableEq, Repr

/-- Embeds `SafetyManager._clean_old_records`: keep only records with
`timestamp > time.time() - 24*60*60`. -/
def clean_old_records (now : Int) (actions : List ActionRecord) : List ActionRecord :=
  actions.filter (fun a => decide (now - 86400 < a.timestamp))

/-- Embeds `SafetyManager.load_history`: a missing file leaves the list empty, an
unreadable or malformed file is caught (`except`) and leaves the list
empty, and a fully written file is parsed and then pruned of records older
than 24 hours. -/
def load_history (now : Int) (f : FileContent) : List ActionRecord :=
  match f with
  | FileContent.missing => []
  | FileContent.corrupt => []
  | FileContent.valid recs _ => clean_old_records now recs

/-- The externally observable file states while `SafetyManager.save_history`
runs.  The code executes `open(self.state_file, "w")` followed by
`json.dump`: opening with mode `w` truncates the file in place, so between
the open and the completion of the final write a crash or a concurrent
reader observes a truncated document, which is not valid JSON (`corrupt`);
only after the dump completes does the file hold the new snapshot. -/
def save_history_observable (st : SState) (now : Int) : List FileContent :=
  [FileContent.corrupt, FileContent.valid st.actions now]

/-- A persistence step is atomic with respect to crashes and concurrent
readers when every observable intermediate file state is either the
previous content or the final content. -/
def atomic_save (old : FileContent) (observables : List FileContent)
    (final : FileContent) : Prop :=
  ∀ f ∈ observables, f = old ∨ f = final

/-- Embeds `SafetyManager.record_action`: append a record stamped `time.time()`,
prune records older than 24 hours, and persist the whole set
(`save_history` rewrites the file with the new actions and
`last_updated = time.time()`). -/
def record_action (now : Int) (t : String) (details : List (String × String))
    (st : SState) : SState :=
  let actions := clean_old_records now
    (st.actions ++ [{ timestamp := now, action_type := t, details := details }])
  { st with actions := actions, file := FileContent.valid actions now }

/-- Embeds `SafetyManager.get_action_count`: number of records of the given type
with `timestamp > time.time() - hours*60*60`. -/
def get_action_count (now : Int) (t : String) (hours : Nat)
    (actions : List ActionRecord) : Nat :=
  actions.countP (fun a => a.action_type == t && decide (now - hours * 3600 < a.timestamp))

/-- Embeds `SafetyManager.get_action_count_today`: number of records of the given
type with `timestamp > today_start.timestamp()`; the midnight-aligned
cutoff is passed in as `midnight`. -/
def get_action_count_today (midnight : Int) (t : String)
    (actions : List ActionRecord) : Nat :=
  actions.countP (fun a => a.action_type == t && decide (midnight < a.timestamp))

/-- The `limits` table built at the top of
`SafetyManager.can_perform_action`: per-hour and per-day caps per action
type (comments, likes and replies have no daily cap; unknown action types
are absent). -/
def limits_for (s : Settings) (t : String) : Option (Option Nat × Option Nat) :=
  if t = "post" then some (some s.max_posts_per_hour, some s.max_posts_per_day)
  else if t = "comment" then some (some s.max_comments_per_hour, none)
  else if t = "like" then some (some s.max_likes_per_hour, none)
  else if t = "reply" then some (some s.max_comments_per_hour, none)
  else none

/-- Python truthiness of an optional integer cap, as used by
`if limit[...]:` — `None` and `0` are falsy. -/
def opt_truthy : Option Nat → Bool
  | none => false
  | some n => n != 0

/-- Embeds `SafetyManager.can_perform_action`, as a state transformer (the method
only reads `self.actions`; every `return` leaves the state untouched).
Checks the rolling-hour cap first, then the calendar-day cap; the first
violated cap produces the reason string of the source f-string. -/
def can_perform_action (s : Settings) (now midnight : Int) (t : String)
    (st : SState) : (Bool × Option String) × SState :=
  match limits_for s t with
  | none => ((true, none), st)
  | some (perHour, perDay) =>
    let hourly := get_action_count now t 1 st.actions
    if opt_truthy perHour = true ∧ perHour.getD 0 ≤ hourly then
      ((false, some ("Hourly limit reached: " ++ toString hourly ++ "/" ++
        toString (perHour.getD 0) ++ " " ++ t ++ "s")), st)
    else if opt_truthy perDay = true then
      let daily := get_action_count_today midnight t st.actions
      if perDay.getD 0 ≤ daily then
        ((false, some ("Daily limit reached: " ++ toString daily ++ "/" ++
          toString (perDay.getD 0) ++ " " ++ t ++ "s")), st)
      else ((true, none), st)
    else ((true, none), st)

/-- Embeds `SafetyManager.get_random_delay` with the randomness made explicit:
`sample` stands for `random.randint(min_seconds, max_seconds)` and
`perturb` for the signed variation `random.randint(-variation, variation)`
with `variation = int(delay * 0.1)`; the function returns
`max(delay, min_seconds)`. -/
def get_random_delay (min_seconds max_seconds sample perturb : Int) : Int :=
  max (sample + perturb) min_seconds

/-- The hourly-cap table built in the second half of
`SafetyManager.check_and_wait_if_needed`. -/
def hourly_limit_for (s : Settings) (t : String) : Option Nat :=
  if t = "post" then some s.max_posts_per_hour
  else if t = "comment" then some s.max_comments_per_hour
  else if t = "like" then some s.max_likes_per_hour
  else if t = "reply" then some s.max_comments_per_hour
  else none

/-- Embeds `SafetyManager.check_and_wait_if_needed`: if the action is denied it
returns `False` (the wait estimates it logs have no state effect); if the
action is allowed and the rolling-hour count has reached
`int(limit * 0.8)` — which for a nonnegative integer cap equals
`(limit * 4) / 5` — it sleeps a hard-coded 300-second safety delay and
returns `True`; otherwise it returns `True` with no sleep. -/
def check_and_wait_if_needed (s : Settings) (now midnight : Int) (t : String)
    (st : SState) : Bool × SState :=
  match can_perform_action s now midnight t st with
  | ((false, _), st) => (false, st)
  | ((true, _), st) =>
    match hourly_limit_for s t with
    | none => (true, st)
    | some limit =>
      let hourly := get_action_count now t 1 st.actions
      if limit * 4 / 5 ≤ hourly then
        (true, { st with sleeps := st.sleeps ++ [300] })
      else (true, st)

/-- Outcome of one call to the instagrapi client from
`Uploader.upload_video` (the `clip_upload` / `video_upload` pair wrapped in
`try`): a successful upload with the extracted media id, or one of the
exception classes the method handles (`LoginRequired`,
`PleaseWaitFewMinutes`, any other exception). -/
inductive PublishOutcome where
  | ok (media_id : String)
  | loginRequired
  | pleaseWait (msg : String)
  | otherError (msg : String)
deriving DecidableEq, Repr

/-- The environment of one run: the settings object, the fixed clock and
midnight cutoff (within one batch every action happens before any record
ages out), and the deterministic behavior of the external collaborators:
filesystem existence checks, the hashtag generator, the comment feed
returned by `media_comments`, and the per-comment outcomes of the
engagement client calls.  `auto_like_comments` is the flag threaded through
`upload_multiple_videos` / `upload_video_metadata`. -/
structure Env where
  settings : Settings
  now : Int
  midnight : Int
  fileExists : String → Bool
  hashtags : List String
  commentFeed : List Nat
  commentOutcome : Option Nat
  likeSucceeds : Nat → Bool
  replySucceeds : Nat → Bool
  alreadyReplied : Nat → Bool
  auto_like_comments : Bool

/-- Whether `needle` occurs as a contiguous run inside `hay`. -/
def has_infix (needle : List Char) : List Char → Bool
  | [] => needle.isEmpty
  | c :: rest => needle.isPrefixOf (c :: rest) || has_infix needle rest

/-- The keyword scan of the generic `except` branch of
`Uploader.upload_video`:
`any(keyword in error_msg.lower() for keyword in [...])`. -/
def mentions_rate_limit (msg : String) : Bool :=
  ["rate limit", "too many", "wait", "try again later"].any
    (fun k => has_infix k.data msg.toLower.data)

/-- The exponential backoff computed in the `PleaseWaitFewMinutes` handler
of `Uploader.upload_video`:
`retry_base_delay * (2 ** retry_count)` slept as `min(backoff, 3600)`
(the ceiling of one hour is hard-coded). -/
def backoff_delay (base : Nat) (attempt : Nat) : Nat :=
  min (base * 2 ^ attempt) 3600

/-- The guard prefix of `Uploader.upload_video`: the authentication check,
the `QuotaGuard` check for a post, and the file-existence check, in source
order; `false` means the method returns `None` before calling the client. -/
def upload_video_guard (env : Env) (video_path : String) (st : SState) :
    Bool × SState :=
  if st.authenticated = false then (false, st)
  else
    match can_perform_action env.settings env.now env.midnight "post" st with
    | ((false, _), st) => (false, st)
    | ((true, _), st) =>
      if env.fileExists video_path = false then (false, st) else (true, st)

/-- The caption and hashtag construction of `Uploader.upload_video`
(string-only; it is fed to the client call, whose outcome the script
abstracts). -/
def build_caption (env : Env) (caption : Option String) (video_path : String) :
    String :=
  (caption.getD ("Uploaded via automation - " ++ video_path)) ++
    (if env.settings.use_trending_hashtags ∧ env.hashtags ≠ [] then
      "\n\n" ++ String.intercalate " " env.hashtags else "")

/-- Embeds `Uploader.upload_video`.  After the guard prefix the client call is
made, its outcome being the head of the script.  On success the action is
recorded and the retry counter reset; on `LoginRequired` the method
re-authenticates (a no-op, since `login` returns immediately when
`_authenticated` is set) and calls itself again, re-running the guards; on
`PleaseWaitFewMinutes` it records a `rate_limit` ledger event, sleeps the
capped exponential backoff if enabled, and returns `None` — it does not
retry; on any other exception it sleeps 300 seconds if the message
mentions rate limiting and returns `None`.  An empty script (no scripted
client behavior left) is a failed call. -/
def upload_video (env : Env) (video_path : String) (caption : Option String) :
    SState → List PublishOutcome → Option String × SState × List PublishOutcome
  | st, [] =>
    match upload_video_guard env video_path st with
    | (_, st) => (none, st, [])
  | st, outcome :: rest =>
    match upload_video_guard env video_path st with
    | (false, st) => (none, st, outcome :: rest)
    | (true, st) =>
      let _caption := build_caption env caption video_path
      match outcome with
      | PublishOutcome.ok media_id =>
        let st := record_action env.now "post"
          [("media_id", media_id), ("video_path", video_path)] st
        let st := { st with retry_count := 0 }
        (some media_id, st, rest)
      | PublishOutcome.loginRequired =>
        upload_video env video_path caption st rest
      | PublishOutcome.pleaseWait msg =>
        let st := record_action env.now "rate_limit"
          [("error", msg), ("action", "upload")] st
        let st := if env.settings.enable_exponential_backoff then
            { st with sleeps := st.sleeps ++
              [backoff_delay env.settings.retry_base_delay st.retry_count] }
          else st
        (none, st, rest)
      | PublishOutcome.otherError msg =>
        let st := if mentions_rate_limit msg then
            { st with sleeps := st.sleeps ++ [300] } else st
        (none, st, rest)

/-- Embeds `Uploader.comment_on_post`: authentication guard, empty-text guard,
quota check for a comment, then the client call (`media_comment`, whose
result or failure is `env.commentOutcome`); a posted comment is recorded. -/
def comment_on_post (env : Env) (media_id : String) (text : String)
    (st : SState) : Bool × SState :=
  if st.authenticated = false then (false, st)
  else if text.trim = "" then (false, st)
  else
    match can_perform_action env.settings env.now env.midnight "comment" st with
    | ((false, _), st) => (false, st)
    | ((true, _), st) =>
      match env.commentOutcome with
      | some pk =>
        (true, record_action env.now "comment"
          [("media_id", media_id), ("comment_id", toString pk)] st)
      | none => (false, st)

/-- The per-comment loop of `Uploader.like_comments_on_post`: a denied
quota check breaks out of the loop; a failed `comment_like` call is caught
and skipped; a successful like is recorded. -/
def like_loop (env : Env) : List Nat → Nat → SState → Nat × SState
  | [], liked, st => (liked, st)
  | pk :: rest, liked, st =>
    match can_perform_action env.settings env.now env.midnight "like" st with
    | ((false, _), st) => (liked, st)
    | ((true, _), st) =>
      if env.likeSucceeds pk then
        like_loop env rest (liked + 1)
          (record_action env.now "like" [("comment_id", toString pk)] st)
      else like_loop env rest liked st

/-- Embeds `Uploader.like_comments_on_post`: authentication guard, fetch up to
`max_comments` comments, then like at most
`min(len(comments), auto_like_max_per_post)` of them. -/
def like_comments_on_post (env : Env) (max_comments : Nat) (st : SState) :
    Nat × SState :=
  if st.authenticated = false then (0, st)
  else
    let comments := env.commentFeed.take max_comments
    if comments = [] then (0, st)
    else
      like_loop env (comments.take (min comments.length env.settings.auto_like_max_per_post)) 0 st

/-- The per-comment loop of `Uploader.reply_to_comments`: an
already-answered comment is skipped (the duck-typed check, fail-open, is
`env.alreadyReplied`); a denied quota check breaks; reaching
`auto_reply_max_per_post` breaks; a failed `media_comment` reply is caught
and skipped; a successful reply is recorded. -/
def reply_loop (env : Env) : List Nat → Nat → SState → Nat × SState
  | [], replied, st => (replied, st)
  | pk :: rest, replied, st =>
    if env.alreadyReplied pk then reply_loop env rest replied st
    else
      match can_perform_action env.settings env.now env.midnight "reply" st with
      | ((false, _), st) => (replied, st)
      | ((true, _), st) =>
        if env.settings.auto_reply_max_per_post ≤ replied then (replied, st)
        else if env.replySucceeds pk then
          reply_loop env rest (replied + 1)
            (record_action env.now "reply" [("comment_id", toString pk)] st)
        else reply_loop env rest replied st

/-- Embeds `Uploader.reply_to_comments`: authentication guard, empty-text guard,
then the reply loop over up to `max_comments` fetched comments. -/
def reply_to_comments (env : Env) (text : String) (max_comments : Nat)
    (st : SState) : Nat × SState :=
  if st.authenticated = false then (0, st)
  else if text.trim = "" then (0, st)
  else reply_loop env (env.commentFeed.take max_comments) 0 st

/-- Embeds `Uploader.upload_video_metadata`.  An item that is not `DOWNLOADED` is
marked `UPLOAD_FAILED` (the error text interpolates the status field the
method itself just overwrote).  A missing `file_path` makes
`Path(video_path)` raise, which the surrounding `except` turns into
`UPLOAD_FAILED` with the exception text.  Otherwise the item is set to
`UPLOADING`, uploaded via `upload_video` with caption
`metadata.title or "Reposted video"`, and on success marked `UPLOADED`
followed by the three optional engagement sub-steps (which act only on the
safety state, never on the item); on failure it is marked `UPLOAD_FAILED`. -/
def upload_video_metadata (env : Env) (m : VideoMetadata) (st : SState)
    (script : List PublishOutcome) :
    VideoMetadata × SState × List PublishOutcome :=
  if m.status ≠ VideoStatus.downloaded then
    ({ m with status := VideoStatus.upload_failed,
              error_message := some "Video not ready for upload. Status: upload_failed" },
     st, script)
  else
    match m.file_path with
    | none =>
      ({ m with status := VideoStatus.upload_failed,
                error_message := some "expected str, bytes or os.PathLike object, not NoneType" },
       st, script)
    | some path =>
      match upload_video env path (some (m.title.getD "Reposted video")) st script with
      | (some media_id, st, script) =>
        let m := { m with post_id := some media_id, status := VideoStatus.uploaded }
        let st := if env.settings.auto_comment_enabled then
            (comment_on_post env media_id env.settings.auto_comment_text st).2 else st
        let st := if env.settings.auto_reply_enabled then
            (reply_to_comments env env.settings.auto_reply_text 10 st).2 else st
        let st := if env.auto_like_comments then
            (like_comments_on_post env 10 st).2 else st
        (m, st, script)
      | (none, st, script) =>
        ({ m with status := VideoStatus.upload_failed,
                  error_message := some "Upload failed - no media ID returned" },
         st, script)

/-- The write-back step of the batch loop of
`Uploader.upload_multiple_videos`: replace the first element of `videos`
whose url matches the processed item, and stop (`break`). -/
def update_by_url (u : String) (m : VideoMetadata) :
    List VideoMetadata → List VideoMetadata
  | [] => []
  | v :: rest => if v.url = u then m :: rest else v :: update_by_url u m rest

/-- Result of a batch run: the updated full list, the accumulated
`results` list of processed items, and the final state and remaining
client script. -/
structure BatchResult where
  videos : List VideoMetadata
  results : List VideoMetadata
  st : SState
  script : List PublishOutcome
deriving Repr

/-- The `for` loop of `Uploader.upload_multiple_videos`: process the
filtered items one at a time, in order, appending each processed item to
`results` and writing it back into `videos` by url.  The randomized
inter-upload wait and the statistics printout touch neither the items nor
the ledger and are not modeled. -/
def upload_batch_loop (env : Env) :
    List VideoMetadata → List VideoMetadata → List VideoMetadata → SState →
      List PublishOutcome → BatchResult
  | [], videos, results, st, script =>
    { videos := videos, results := results, st := st, script := script }
  | m :: rest, videos, results, st, script =>
    let r := upload_video_metadata env m st script
    upload_batch_loop env rest (update_by_url m.url r.1 videos)
      (results ++ [r.1]) r.2.1 r.2.2

/-- Embeds `Uploader.upload_multiple_videos`: filter the items in `DOWNLOADED`
status and process them sequentially (an empty selection returns the input
list unchanged). -/
def upload_multiple_videos (env : Env) (videos : List VideoMetadata)
    (st : SState) (script : List PublishOutcome) : BatchResult :=
  upload_batch_loop env
    (videos.filter (fun v => v.status == VideoStatus.downloaded))
    videos [] st script

/-- The summary computed at the end of `Uploader.upload_multiple_videos`:
`successful` counts processed items in `UPLOADED` status, `failed` is the
rest of the processed items. -/
def batch_summary (results : List VideoMetadata) : Nat × Nat :=
  let successful := results.countP (fun m => m.status == VideoStatus.uploaded)
  (successful, results.length - successful)

/-! Concrete run configurations used to exercise the embedded code on the
scenarios of the specification. -/

/-- A collaborator environment with the default settings of `config.py`:
every file exists, no hashtags, empty comment feed, engagement flags off. -/
def env0 : Env :=
  { settings := {}, now := 1000000, midnight := 0,
    fileExists := fun _ => true, hashtags := [],
    commentFeed := [], commentOutcome := none,
    likeSucceeds := fun _ => true, replySucceeds := fun _ => true,
    alreadyReplied := fun _ => false, auto_like_comments := false }

/-- The environment of the end-to-end batch scenario: hourly post cap of 1. -/
def env_cap1 : Env := { env0 with settings := { max_posts_per_hour := 1 } }

/-- Settings with an hourly post cap of 0. -/
def s_cap0 : Settings := { max_posts_per_hour := 0 }

/-- An authenticated run with an empty ledger. -/
def st_auth : SState :=
  { actions := [], file := FileContent.missing, authenticated := true,
    retry_count := 0, sleeps := [] }

/-- A run whose ledger holds one fresh post record. -/
def st_1post : SState :=
  { st_auth with actions := [{ timestamp := 100, action_type := "post" }] }

/-- A run whose ledger holds two fresh post records. -/
def st_2posts : SState :=
  { st_auth with actions :=
      [{ timestamp := 100, action_type := "post" },
       { timestamp := 100, action_type := "post" }] }

/-- Three downloaded items with distinct urls. -/
def vids3 : List VideoMetadata :=
  [ { url := "u1", file_path := some "f1", status := VideoStatus.downloaded },
    { url := "u2", file_path := some "f2", status := VideoStatus.downloaded },
    { url := "u3", file_path := some "f3", status := VideoStatus.downloaded } ]

/-- A mixed batch: one downloaded item, one failed download, one already
uploaded item. -/
def vids_mixed : List VideoMetadata :=
  [ { url := "u1", file_path := some "f1", status := VideoStatus.downloaded },
    { url := "u2", status := VideoStatus.download_failed,
      error_message := some "network error" },
    { url := "u3", file_path := some "f3", status := VideoStatus.uploaded,
      post_id := some "m0" } ]

/-- A client script that would accept all three uploads. -/
def script3 : List PublishOutcome :=
  [PublishOutcome.ok "m1", PublishOutcome.ok "m2", PublishOutcome.ok "m3"]

/-! Helper lemmas. -/

/-- Every branch of `can_perform_action` returns the input state. -/
theorem can_perform_state_eq (s : Settings) (now midnight : Int) (t : String)
    (st : SState) : (can_perform_action s now midnight t st).2 = st := by
  unfold can_perform_action
  split
  · rfl
  · dsimp only
    split
    · rfl
    · split
      · split
        · rfl
        · rfl
      · rfl

/-- Processing an item with `upload_video_metadata` never changes its url. -/
theorem upload_video_metadata_url (env : Env) (m : VideoMetadata) (st : SState)
    (script : List PublishOutcome) :
    (upload_video_metadata env m st script).1.url = m.url := by
  unfold upload_video_metadata
  split
  · rfl
  · split
    · rfl
    · split
      · rfl
      · rfl

/-- A `DOWNLOADED` item leaves `upload_video_metadata` either `UPLOADED` or
`UPLOAD_FAILED`. -/
theorem upload_video_metadata_status_of_downloaded (env : Env)
    (m : VideoMetadata) (st : SState) (script : List PublishOutcome)
    (h : m.status = VideoStatus.downloaded) :
    (upload_video_metadata env m st script).1.status = VideoStatus.uploaded ∨
    (upload_video_metadata env m st script).1.status = VideoStatus.upload_failed := by
  unfold upload_video_metadata
  rw [if_neg (by simp [h])]
  split
  · right; rfl
  · split
    · left; rfl
    · right; rfl

/-- Updating a list with `update_by_url` preserves its length. -/
theorem update_by_url_length (u : String) (m : VideoMetadata)
    (l : List VideoMetadata) : (update_by_url u m l).length = l.length := by
  induction l with
  | nil => rfl
  | cons v rest ih =>
    unfold update_by_url
    split
    · rfl
    · simp [ih]

/-- When the replacement has the replaced url, `update_by_url` preserves the
url sequence. -/
theorem update_by_url_map_url (u : String) (m : VideoMetadata)
    (l : List VideoMetadata) (hm : m.url = u) :
    (update_by_url u m l).map (fun v => v.url) = l.map (fun v => v.url) := by
  induction l with
  | nil => rfl
  | cons v rest ih =>
    unfold update_by_url
    split
    · next h => simp [hm, h]
    · simp [ih]

/-- A slot whose url differs from the replaced url is untouched by
`update_by_url`. -/
theorem update_by_url_getElem_ne (u : String) (m : VideoMetadata)
    (l : List VideoMetadata) (i : Nat) (v : VideoMetadata)
    (hv : l[i]? = some v) (hne : v.url ≠ u) :
    (update_by_url u m l)[i]? = some v := by
  induction l generalizing i with
  | nil => simp at hv
  | cons w rest ih =>
    cases i with
    | zero =>
      simp only [List.getElem?_cons_zero, Option.some.injEq] at hv
      subst hv
      unfold update_by_url
      split
      · next h => exact absurd h hne
      · simp
    | succ n =>
      simp only [List.getElem?_cons_succ] at hv
      unfold update_by_url
      split
      · simp [hv]
      · simpa using ih n hv

/-- With pairwise-distinct urls, replacing the url of the slot at `i`
rewrites exactly that slot. -/
theorem update_by_url_getElem_eq (m : VideoMetadata) (l : List VideoMetadata)
    (i : Nat) (v : VideoMetadata)
    (hnd : (l.map (fun x => x.url)).Nodup) (hv : l[i]? = some v) :
    (update_by_url v.url m l)[i]? = some m := by
  induction l generalizing i with
  | nil => simp at hv
  | cons w rest ih =>
    rw [List.map_cons] at hnd
    have hnd' := List.nodup_cons.mp hnd
    cases i with
    | zero =>
      simp only [List.getElem?_cons_zero, Option.some.injEq] at hv
      subst hv
      unfold update_by_url
      rw [if_pos rfl]
      simp
    | succ n =>
      simp only [List.getElem?_cons_succ] at hv
      have hvmem : v ∈ rest := List.getElem?_mem hv
      have hwne : w.url ≠ v.url := by
        intro hcontra
        exact hnd'.1 (hcontra ▸ List.mem_map_of_mem (fun x => x.url) hvmem)
      unfold update_by_url
      rw [if_neg hwne]
      simpa using ih n hnd'.2 hv

/-- The batch loop preserves the length of the full list. -/
theorem upload_batch_loop_length (env : Env) (tp : List VideoMetadata) :
    ∀ (videos results : List VideoMetadata) (st : SState)
      (script : List PublishOutcome),
      (upload_batch_loop env tp videos results st script).videos.length =
        videos.length := by
  induction tp with
  | nil => intro videos results st script; rfl
  | cons m rest ih =>
    intro videos results st script
    unfold upload_batch_loop
    rw [ih]
    exact update_by_url_length _ _ _

/-- A slot whose url matches no processed item is untouched by the batch
loop. -/
theorem upload_batch_loop_stable (env : Env) (tp : List VideoMetadata) :
    ∀ (videos results : List VideoMetadata) (st : SState)
      (script : List PublishOutcome) (i : Nat) (v : VideoMetadata),
      videos[i]? = some v → (∀ m ∈ tp, m.url ≠ v.url) →
      (upload_batch_loop env tp videos results st script).videos[i]? = some v := by
  induction tp with
  | nil => intro videos results st script i v hv _; exact hv
  | cons m rest ih =>
    intro videos results st script i v hv hne
    unfold upload_batch_loop
    apply ih
    · exact update_by_url_getElem_ne _ _ _ _ _ hv
        (fun h => hne m (List.mem_cons_self m rest) h.symm)
    · intro m' hm'
      exact hne m' (List.mem_cons_of_mem _ hm')

/-- A `DOWNLOADED` slot that occurs among the processed items ends the batch
loop in `UPLOADED` or `UPLOAD_FAILED` status. -/
theorem upload_batch_loop_processed (env : Env) (tp : List VideoMetadata) :
    ∀ (videos results : List VideoMetadata) (st : SState)
      (script : List PublishOutcome) (i : Nat) (v : VideoMetadata),
      (videos.map (fun x => x.url)).Nodup →
      (tp.map (fun x => x.url)).Nodup →
      videos[i]? = some v → v ∈ tp → v.status = VideoStatus.downloaded →
      ∃ w, (upload_batch_loop env tp videos results st script).videos[i]? = some w ∧
        (w.status = VideoStatus.uploaded ∨ w.status = VideoStatus.upload_failed) := by
  induction tp with
  | nil => intro videos results st script i v _ _ _ hmem _; cases hmem
  | cons m rest ih =>
    intro videos results st script i v hndv hndt hv hmem hdown
    rw [List.map_cons] at hndt
    have hndt' := List.nodup_cons.mp hndt
    unfold upload_batch_loop
    rcases List.mem_cons.mp hmem with rfl | hmem'
    · have hurl := upload_video_metadata_url env v st script
      have hst := upload_video_metadata_status_of_downloaded env v st script hdown
      refine ⟨(upload_video_metadata env v st script).1, ?_, hst⟩
      apply upload_batch_loop_stable
      · exact update_by_url_getElem_eq _ _ _ _ hndv hv
      · intro m' hm' hcontra
        rw [hurl] at hcontra
        exact hndt'.1 (hcontra ▸ List.mem_map_of_mem (fun x => x.url) hm')
    · have hmne : m.url ≠ v.url := by
        intro h
        exact hndt'.1 (h ▸ List.mem_map_of_mem (fun x => x.url) hmem')
      apply ih
      · rw [update_by_url_map_url _ _ _ (upload_video_metadata_url env m st script)]
        exact hndv
      · exact hndt'.2
      · exact update_by_url_getElem_ne _ _ _ _ _ hv (fun h => hmne h.symm)
      · exact hmem'
      · exact hdown

/-! Claim theorems. -/

/-- C8: for every `min <= max`, when the sampled value lies in
`[min, max]` and the perturbation is within plus or minus ten percent of
the sampled value, `get_random_delay` returns a duration of at least `min`
(the final `max(delay, min_seconds)` floor of the source). -/
theorem get_random_delay_ge_min :
    ∀ (min_seconds max_seconds sample perturb : Int),
      min_seconds ≤ max_seconds →
      min_seconds ≤ sample → sample ≤ max_seconds →
      -(sample / 10) ≤ perturb → perturb ≤ sample / 10 →
      min_seconds ≤ get_random_delay min_seconds max_seconds sample perturb := by
  intro mn mx u p _ _ _ _ _
  exact le_max_right _ _

/-- Witness for C8: a concrete sample with a negative perturbation. -/
theorem get_random_delay_ge_min_witness :
    ((600:Int) ≤ 1800 ∧ (600:Int) ≤ 1000 ∧ (1000:Int) ≤ 1800 ∧
      -((1000:Int) / 10) ≤ -100 ∧ (-100:Int) ≤ 1000 / 10) ∧
    (600:Int) ≤ get_random_delay 600 1800 1000 (-100) :=
  ⟨⟨by decide, by decide, by decide, by decide, by decide⟩,
   get_random_delay_ge_min 600 1800 1000 (-100) (by decide) (by decide)
     (by decide) (by decide) (by decide)⟩

/-- C9: the backoff slept in the rate-limit handler of
`Uploader.upload_video` is `min(base * 2 ** attempt, 3600)`: it is
non-decreasing in the attempt counter and never exceeds the one-hour
ceiling. -/
theorem backoff_delay_monotone_capped :
    ∀ (base a1 a2 : Nat), a1 ≤ a2 →
      backoff_delay base a1 ≤ backoff_delay base a2 ∧
      ∀ a, backoff_delay base a ≤ 3600 := by
  intro base a1 a2 h
  constructor
  · exact min_le_min
      (Nat.mul_le_mul_left _ (Nat.pow_le_pow_right (by omega) h)) le_rfl
  · intro a
    exact min_le_right _ _

/-- Witness for C9 at the default base delay of 60 seconds. -/
theorem backoff_delay_monotone_capped_witness :
    1 ≤ 2 ∧ (backoff_delay 60 1 ≤ backoff_delay 60 2 ∧
      ∀ a, backoff_delay 60 a ≤ 3600) :=
  ⟨by decide, backoff_delay_monotone_capped 60 1 2 (by decide)⟩

/-- C6: after `record_action` every retained record is at most 24 hours
old; after any prune (`_clean_old_records`) every retained record is at
most 24 hours old; and a 24-hour `get_action_count` query counts exactly
the records of the type that are strictly younger than 24 hours, so it
includes no older record. -/
theorem ledger_prune_invariant :
    ∀ (now : Int) (t : String) (details : List (String × String)) (st : SState)
      (tt : String) (recs : List ActionRecord),
      (∀ a ∈ (record_action now t details st).actions, now - a.timestamp ≤ 86400) ∧
      (∀ a ∈ clean_old_records now recs, now - a.timestamp ≤ 86400) ∧
      get_action_count now tt 24 recs =
        recs.countP (fun a => a.action_type == tt && decide (now - a.timestamp < 86400)) := by
  intro now t details st tt recs
  refine ⟨?_, ?_, ?_⟩
  · intro a ha
    simp only [record_action, clean_old_records, List.mem_filter,
      decide_eq_true_eq] at ha
    omega
  · intro a ha
    simp only [clean_old_records, List.mem_filter, decide_eq_true_eq] at ha
    omega
  · unfold get_action_count
    refine List.countP_congr ?_
    intro a _
    simp only [Bool.and_eq_true, decide_eq_true_eq, beq_iff_eq]
    push_cast
    constructor <;> rintro ⟨h1, h2⟩ <;> exact ⟨h1, by omega⟩

/-- Witness for C6: the 24-hour count over a concrete ledger. -/
theorem ledger_prune_invariant_witness :
    get_action_count 100 "post" 24 st_2posts.actions =
      st_2posts.actions.countP
        (fun a => a.action_type == "post" && decide ((100:Int) - a.timestamp < 86400)) :=
  (ledger_prune_invariant 100 "post" [] st_auth "post" st_2posts.actions).2.2

/-- C3, counterexample: `save_history` rewrites the history file in place
(`open(path, "w")` truncates before `json.dump` writes), so one of its
observable intermediate states is a corrupt, partially written file that is
neither the previous snapshot nor the new one — the write is not atomic, as
the claim requires. -/
theorem save_history_not_atomic_cex :
    ¬ atomic_save (FileContent.valid [{ timestamp := 0, action_type := "post" }] 0)
        (save_history_observable st_auth 5)
        (FileContent.valid st_auth.actions 5) := by
  intro h
  rcases h FileContent.corrupt (by simp [save_history_observable]) with h1 | h1 <;>
    exact FileContent.noConfusion h1

/-- C3, amended: the persistence write of `save_history` is in place and
not atomic — for every non-corrupt previous content a crash mid-write or a
concurrent reader can observe a corrupt intermediate file; on restart,
however, `load_history` yields the parsed (and pruned) snapshot when the
file is fully written and otherwise starts empty — it never yields a
truncated record set. -/
theorem save_history_inplace_recovery :
    ∀ (st : SState) (now : Int) (old : FileContent), old ≠ FileContent.corrupt →
      ¬ atomic_save old (save_history_observable st now)
          (FileContent.valid st.actions now) ∧
      ∀ f, load_history now f = [] ∨
        ∃ recs t, f = FileContent.valid recs t ∧
          load_history now f = clean_old_records now recs := by
  intro st now old hold
  constructor
  · intro h
    rcases h FileContent.corrupt (by simp [save_history_observable]) with h1 | h1
    · exact hold h1.symm
    · cases h1
  · intro f
    cases f with
    | missing => left; rfl
    | corrupt => left; rfl
    | valid recs t => right; exact ⟨recs, t, rfl, rfl⟩

/-- Witness for C3 at a concrete previous snapshot. -/
theorem save_history_inplace_recovery_witness :
    (FileContent.valid [] 0 ≠ FileContent.corrupt) ∧
    (¬ atomic_save (FileContent.valid [] 0) (save_history_observable st_auth 5)
        (FileContent.valid st_auth.actions 5) ∧
      ∀ f, load_history 5 f = [] ∨
        ∃ recs t, f = FileContent.valid recs t ∧
          load_history 5 f = clean_old_records 5 recs) :=
  ⟨by decide, save_history_inplace_recovery st_auth 5 (FileContent.valid [] 0) (by decide)⟩

/-- C10: `can_perform_action` is a pure query — it returns its verdict
with the state unchanged (neither the in-memory action list nor the
persisted file is modified), and `check_and_wait_if_needed`, the other
reader, also leaves the action list and the file unchanged; only
`record_action` and `load_history` produce new ledger contents. -/
theorem can_perform_action_pure :
    ∀ (s : Settings) (now midnight : Int) (t : String) (st : SState),
      (can_perform_action s now midnight t st).2 = st ∧
      (check_and_wait_if_needed s now midnight t st).2.actions = st.actions ∧
      (check_and_wait_if_needed s now midnight t st).2.file = st.file := by
  intro s now midnight t st
  have hc := can_perform_state_eq s now midnight t st
  refine ⟨hc, ?_, ?_⟩ <;>
    · unfold check_and_wait_if_needed
      split
      · next b st₂ heq =>
          have h2 : st₂ = st := by
            have := congrArg Prod.snd heq
            rw [hc] at this
            exact this.symm
          rw [h2]
      · next b r st₂ heq =>
          have h2 : st₂ = st := by
            have := congrArg Prod.snd heq
            rw [hc] at this
            exact this.symm
          subst h2
          split
          · rfl
          · dsimp only
            split
            · rfl
            · rfl

/-- C4, counterexample: an hourly cap of 0 does not deny the next action —
Python tests the cap for truthiness before comparing, and `0` is falsy, so the
cap is skipped entirely and the first action (the `(N+1)`-th for `N = 0`)
is allowed, where the claim requires denial. -/
theorem can_perform_zero_cap_cex :
    (can_perform_action s_cap0 1000000 0 "post" st_auth).1 = (true, none) := by
  decide

/-- C4, amended (hourly cap at least 1): for every action type whose
hourly cap is configured as `N >= 1`, the action is allowed while the
rolling-hour count is below `N` (and the daily cap, when configured
nonzero, is not yet reached), is denied with the hourly reason string —
naming the window and the current/limit counts — once the count has
reached `N` (regardless of the daily cap, since the hourly cap is checked
first), and is denied with the daily reason string when only the daily cap
is violated. -/
theorem can_perform_hourly_cap (s : Settings) (now midnight : Int) (t : String)
    (st : SState) (N : Nat) (perDay : Option Nat)
    (hlim : limits_for s t = some (some N, perDay)) (hN : 1 ≤ N) :
    (get_action_count now t 1 st.actions < N →
      (∀ d, perDay = some d → d ≠ 0 →
        get_action_count_today midnight t st.actions < d) →
      can_perform_action s now midnight t st = ((true, none), st)) ∧
    (N ≤ get_action_count now t 1 st.actions →
      can_perform_action s now midnight t st =
        ((false, some ("Hourly limit reached: " ++
          toString (get_action_count now t 1 st.actions) ++ "/" ++ toString N ++
          " " ++ t ++ "s")), st)) ∧
    (get_action_count now t 1 st.actions < N →
      ∀ d, perDay = some d → d ≠ 0 →
        d ≤ get_action_count_today midnight t st.actions →
        can_perform_action s now midnight t st =
          ((false, some ("Daily limit reached: " ++
            toString (get_action_count_today midnight t st.actions) ++ "/" ++
            toString d ++ " " ++ t ++ "s")), st)) := by
  unfold can_perform_action
  rw [hlim]
  dsimp only
  refine ⟨?_, ?_, ?_⟩
  · intro hlt hdaily
    rw [if_neg (by simp only [opt_truthy, Option.getD_some, bne_iff_ne, ne_eq]; omega)]
    rcases perDay with _ | d
    · rw [if_neg (by simp [opt_truthy])]
    · by_cases hd : d = 0
      · rw [if_neg (by simp [opt_truthy, hd])]
      · rw [if_pos (by simp [opt_truthy, hd]),
          if_neg (by simp only [Option.getD_some]; exact not_le.mpr (hdaily d rfl hd))]
  · intro hge
    rw [if_pos (by simp only [opt_truthy, Option.getD_some, bne_iff_ne, ne_eq]; omega)]
    rfl
  · intro hlt d hd hd0 hdge
    subst hd
    rw [if_neg (by simp only [opt_truthy, Option.getD_some, bne_iff_ne, ne_eq]; omega),
      if_pos (by simp [opt_truthy, hd0]),
      if_pos (by simpa using hdge)]
    rfl

/-- Witness for C4: with the default cap of 2 posts per hour, a ledger
holding 2 fresh posts is denied with the hourly reason string. -/
theorem can_perform_hourly_cap_witness :
    can_perform_action ({} : Settings) 100 0 "post" st_2posts =
      ((false, some ("Hourly limit reached: " ++
        toString (get_action_count 100 "post" 1 st_2posts.actions) ++ "/" ++
        toString 2 ++ " " ++ "post" ++ "s")), st_2posts) :=
  (can_perform_hourly_cap ({} : Settings) 100 0 "post" st_2posts 2 (some 10)
    (by decide) (by decide)).2.1 (by decide)

/-- C7, counterexample: the safety-margin threshold in
`check_and_wait_if_needed` is `int(limit * 0.8)`; with the default hourly
post cap of 2 this is 1, so the 300-second margin sleep is inserted after a
single post, although one post is strictly below 80 percent of the cap —
the exactly-at-80-percent claim is false. -/
theorem check_and_wait_margin_cex :
    (check_and_wait_if_needed ({} : Settings) 100 0 "post" st_1post).2.sleeps = [300] ∧
    5 * get_action_count 100 "post" 1 st_1post.actions < 4 * 2 := by
  decide

/-- C7, amended: for every action type with a configured hourly cap, when
the action is still allowed `check_and_wait_if_needed` returns `True`; it
inserts the fixed hard-coded 300-second (5-minute) extra cooldown whenever
the rolling-hour count has reached `int(limit * 0.8)` — so certainly
whenever the count is at least 80 percent of the cap, and only when the
count is within one unit below 80 percent of the cap. -/
theorem check_and_wait_safety_margin (s : Settings) (now midnight : Int)
    (t : String) (st : SState) (limit : Nat)
    (hlim : hourly_limit_for s t = some limit)
    (hallow : (can_perform_action s now midnight t st).1.1 = true) :
    (check_and_wait_if_needed s now midnight t st).1 = true ∧
    (4 * limit ≤ 5 * get_action_count now t 1 st.actions →
      (check_and_wait_if_needed s now midnight t st).2.sleeps =
        st.sleeps ++ [300]) ∧
    ((check_and_wait_if_needed s now midnight t st).2.sleeps ≠ st.sleeps →
      4 * limit < 5 * (get_action_count now t 1 st.actions + 1)) := by
  have hc := can_perform_state_eq s now midnight t st
  unfold check_and_wait_if_needed
  split
  · next b st₂ heq =>
      rw [heq] at hallow
      exact absurd hallow (by simp)
  · next b r st₂ heq =>
      have h2 : st₂ = st := by
        have := congrArg Prod.snd heq
        rw [hc] at this
        exact this.symm
      subst h2
      rw [hlim]
      dsimp only
      split
      · next hcond =>
          refine ⟨rfl, fun _ => rfl, fun _ => ?_⟩
          omega
      · next hcond =>
          refine ⟨rfl, fun hge => absurd hcond (by push_neg; omega), fun hne => ?_⟩
          exact absurd rfl hne

/-- Witness for C7: default settings, one fresh post in the ledger. -/
theorem check_and_wait_safety_margin_witness :
    (check_and_wait_if_needed ({} : Settings) 100 0 "post" st_1post).1 = true ∧
    (4 * 2 ≤ 5 * get_action_count 100 "post" 1 st_1post.actions →
      (check_and_wait_if_needed ({} : Settings) 100 0 "post" st_1post).2.sleeps =
        st_1post.sleeps ++ [300]) ∧
    ((check_and_wait_if_needed ({} : Settings) 100 0 "post" st_1post).2.sleeps ≠
        st_1post.sleeps →
      4 * 2 < 5 * (get_action_count 100 "post" 1 st_1post.actions + 1)) :=
  check_and_wait_safety_margin ({} : Settings) 100 0 "post" st_1post 2
    (by decide) (by decide)

/-- C2, counterexample: with a client that would signal a rate limit twice
and then succeed, `upload_video` gives up after the first rate-limit
signal: it returns failure, the ledger holds exactly one `rate_limit`
record and no `post` record, and the remaining script is never consumed —
not the success with two `RateLimitEvent` entries and one `Post` entry the
claim requires. -/
theorem upload_video_rate_limited_cex :
    (upload_video env0 "f1" none st_auth
      [PublishOutcome.pleaseWait "x", PublishOutcome.pleaseWait "x",
       PublishOutcome.ok "m1"]).1 = none ∧
    ((upload_video env0 "f1" none st_auth
      [PublishOutcome.pleaseWait "x", PublishOutcome.pleaseWait "x",
       PublishOutcome.ok "m1"]).2.1.actions.countP
        (fun a => a.action_type == "rate_limit") = 1) ∧
    ((upload_video env0 "f1" none st_auth
      [PublishOutcome.pleaseWait "x", PublishOutcome.pleaseWait "x",
       PublishOutcome.ok "m1"]).2.1.actions.countP
        (fun a => a.action_type == "post") = 0) := by
  decide

/-- C2, amended: an explicit rate-limit signal is not retried.  When the
upload is authenticated, allowed by the quota guard, and the file exists,
a `PleaseWaitFewMinutes` outcome makes `upload_video` record exactly one
`rate_limit` ledger event, sleep the capped exponential backoff
`min(retry_base_delay * 2 ** retry_count, 3600)` (the retry counter is
never incremented, so this is in practice the base delay), and return
failure; the rest of the client script is left unconsumed, and the
configured `max_retry_attempts` plays no role. -/
theorem upload_video_rate_limited_no_retry (env : Env) (vp : String)
    (cap : Option String) (st : SState) (msg : String)
    (rest : List PublishOutcome)
    (hauth : st.authenticated = true)
    (hallow : (can_perform_action env.settings env.now env.midnight "post" st).1.1 = true)
    (hfile : env.fileExists vp = true)
    (hbk : env.settings.enable_exponential_backoff = true) :
    upload_video env vp cap st (PublishOutcome.pleaseWait msg :: rest) =
      (none,
       { record_action env.now "rate_limit" [("error", msg), ("action", "upload")] st with
           sleeps := st.sleeps ++
             [backoff_delay env.settings.retry_base_delay st.retry_count] },
       rest) := by
  have hc := can_perform_state_eq env.settings env.now env.midnight "post" st
  have hg : upload_video_guard env vp st = (true, st) := by
    unfold upload_video_guard
    rw [hauth]
    rw [if_neg (by simp)]
    split
    · next b st₂ heq =>
        rw [heq] at hallow
        exact absurd hallow (by simp)
    · next b r st₂ heq =>
        have h2 : st₂ = st := by
          have := congrArg Prod.snd heq
          rw [hc] at this
          exact this.symm
        subst h2
        rw [hfile]
        rw [if_neg (by simp)]
  unfold upload_video
  rw [hg]
  dsimp only
  rw [hbk]
  rfl

/-- Witness for C2 at a concrete rate-limited call. -/
theorem upload_video_rate_limited_no_retry_witness :
    upload_video env0 "f1" none st_auth
        [PublishOutcome.pleaseWait "slow", PublishOutcome.ok "m"] =
      (none,
       { record_action env0.now "rate_limit" [("error", "slow"), ("action", "upload")] st_auth with
           sleeps := st_auth.sleeps ++
             [backoff_delay env0.settings.retry_base_delay st_auth.retry_count] },
       [PublishOutcome.ok "m"]) :=
  upload_video_rate_limited_no_retry env0 "f1" none st_auth "slow"
    [PublishOutcome.ok "m"] rfl (by decide) rfl rfl

/-- C5: in a batch whose items have pairwise-distinct urls (the item id is
derived from the url), the upload driver only acts on items whose status
is `DOWNLOADED`: every other item — in particular a `DOWNLOAD_FAILED` or
an already `UPLOADED` one — comes out of `upload_multiple_videos` exactly
as it went in (never touched, never moved backward), and every
`DOWNLOADED` item comes out in `UPLOADED` or `UPLOAD_FAILED` status. -/
theorem upload_only_touches_downloaded (env : Env) (videos : List VideoMetadata)
    (st : SState) (script : List PublishOutcome)
    (hnd : (videos.map (fun v => v.url)).Nodup) :
    (upload_multiple_videos env videos st script).videos.length = videos.length ∧
    ∀ (i : Nat) (v : VideoMetadata), videos[i]? = some v →
      (v.status ≠ VideoStatus.downloaded →
        (upload_multiple_videos env videos st script).videos[i]? = some v) ∧
      (v.status = VideoStatus.downloaded →
        ∃ w, (upload_multiple_videos env videos st script).videos[i]? = some w ∧
          (w.status = VideoStatus.uploaded ∨ w.status = VideoStatus.upload_failed)) := by
  have hndf : ((videos.filter (fun v => v.status == VideoStatus.downloaded)).map
      (fun v => v.url)).Nodup :=
    hnd.sublist ((List.filter_sublist videos).map _)
  constructor
  · exact upload_batch_loop_length env _ videos [] st script
  · intro i v hv
    constructor
    · intro hne
      apply upload_batch_loop_stable
      · exact hv
      · intro m hm hcontra
        have hmv := List.mem_filter.mp hm
        have hmeq : m = v :=
          List.inj_on_of_nodup_map hnd hmv.1 (List.getElem?_mem hv) hcontra
        subst hmeq
        exact hne (by simpa using hmv.2)
    · intro hdown
      apply upload_batch_loop_processed env _ videos [] st script i v hnd hndf hv
        ?_ hdown
      exact List.mem_filter.mpr ⟨List.getElem?_mem hv, by simp [hdown]⟩

/-- Witness for C5: a mixed concrete batch — one downloaded, one failed
download, one already uploaded item. -/
theorem upload_only_touches_downloaded_witness :
    (vids_mixed.map (fun v => v.url)).Nodup ∧
    ((upload_multiple_videos env0 vids_mixed st_auth script3).videos.length =
        vids_mixed.length ∧
      ∀ (i : Nat) (v : VideoMetadata), vids_mixed[i]? = some v →
        (v.status ≠ VideoStatus.downloaded →
          (upload_multiple_videos env0 vids_mixed st_auth script3).videos[i]? = some v) ∧
        (v.status = VideoStatus.downloaded →
          ∃ w, (upload_multiple_videos env0 vids_mixed st_auth script3).videos[i]? = some w ∧
            (w.status = VideoStatus.uploaded ∨ w.status = VideoStatus.upload_failed))) :=
  ⟨by decide, upload_only_touches_downloaded env0 vids_mixed st_auth script3 (by decide)⟩

/-- C1, counterexample: batch of 3 downloaded items with hourly post cap 1
and a client that would accept every upload.  After the first upload the
quota guard denies the second item, but the batch does not stop: the
second and third items are driven through `upload_video_metadata`, whose
failed upload marks them `UPLOAD_FAILED` — zero items remain `DOWNLOADED`
(the claim requires 2) and two items are reported failed. -/
theorem upload_batch_quota_claim_cex :
    ((upload_multiple_videos env_cap1 vids3 st_auth script3).videos.countP
        (fun v => v.status == VideoStatus.downloaded) = 0) ∧
    ((upload_multiple_videos env_cap1 vids3 st_auth script3).videos.countP
        (fun v => v.status == VideoStatus.upload_failed) = 2) := by
  decide

/-- C1, amended: with 3 downloaded items and hourly post cap 1, the first
upload succeeds and is recorded in the ledger; the quota guard denies the
second and third before any client call, `upload_video` returns `None`
for them, and `upload_video_metadata` marks them `UPLOAD_FAILED` while the
batch keeps running to the end; the final summary reports 1 successful and
2 failed (not 1 uploaded and 2 still downloaded). -/
theorem upload_batch_quota_marks_failed :
    ((upload_multiple_videos env_cap1 vids3 st_auth script3).videos.map
        (fun v => v.status) =
      [VideoStatus.uploaded, VideoStatus.upload_failed, VideoStatus.upload_failed]) ∧
    batch_summary (upload_multiple_videos env_cap1 vids3 st_auth script3).results =
      (1, 2) ∧
    ((upload_multiple_videos env_cap1 vids3 st_auth script3).st.actions.countP
        (fun a => a.action_type == "post") = 1) := by
  decide
